import Mathlib

/-!
Verification of the lazy command-dispatch and dynamic-option-generation
subsystem of the `sagemaker-hyperpod-cli` repository.

The Python modules embedded here are:
  * `sagemaker/hyperpod/cli/common_utils.py`   (version resolver + schema cache)
  * `sagemaker/hyperpod/cli/inference_utils.py` (option synthesizer)
  * `sagemaker/hyperpod/common/lazy_loading.py` (command registry + lazy dispatcher)
  * `sagemaker/hyperpod/cli/hyp_cli.py`         (default-subcommand rule)

Pure functions are translated directly; the process-global mutable schema
cache becomes explicit state passing; Python exceptions (`click.ClickException`,
`click.BadParameter`, `ValueError`) become `Except String` results carrying the
formatted message; external collaborators (Python's import machinery,
`pkgutil.get_data`, `json.loads`) are abstracted as explicit function
parameters, since their implementations live outside this repository.
-/

deriving instance DecidableEq for Except

namespace HypCLI

/-! ### String primitives

The four Python `str` operations the embedded code uses —
`startswith`, `split('.')`, `int(...)` on digit strings, and the
single-character `replace` — are implemented here on the underlying
character list, where list recursion lets the kernel evaluate them on
concrete inputs.  Each agrees with the corresponding Python operation on
its whole domain of use. -/

/-- Python `s.startswith(pre)`. -/
def strStartsWith (s pre : String) : Bool :=
  pre.data.isPrefixOf s.data

/-- Python `s.split(c)` for a single-character separator: splits at every
occurrence, keeping empty components. -/
def splitOnChar (c : Char) : List Char → List (List Char)
  | [] => [[]]
  | x :: xs =>
    match splitOnChar c xs with
    | [] => if x == c then [[], []] else [[x]]
    | h :: t => if x == c then [] :: h :: t else (x :: h) :: t

/-- The numeric value of a non-empty all-digit character list (`none`
otherwise); on that domain it is Python's `int(...)`. -/
def digitsToNat? (l : List Char) : Option Nat :=
  if l.isEmpty then none
  else if l.all Char.isDigit then
    some (l.foldl (fun acc c => acc * 10 + (c.toNat - 48)) 0)
  else none

/-- Python `s.replace(a, b)` for single characters `a`, `b`. -/
def strReplaceChar (s : String) (a b : Char) : String :=
  ⟨s.data.map (fun c => if c == a then b else c)⟩

/-- Python string comparison (code-point lexicographic) on the underlying
character lists. -/
def charListLe : List Char → List Char → Bool
  | [], _ => true
  | _ :: _, [] => false
  | a :: as, b :: bs =>
    if a.toNat < b.toNat then true
    else if b.toNat < a.toNat then false
    else charListLe as bs

/-- Python `a <= b` on strings, as the ordering `sorted` sorts by. -/
def strOrd (a b : String) : Prop :=
  charListLe a.data b.data = true

instance : DecidableRel strOrd := fun a b =>
  inferInstanceAs (Decidable (charListLe a.data b.data = true))

/-! ### common_utils.py : constants -/

def JUMPSTART_SCHEMA : String := "hyperpod_jumpstart_inference_template"

def CUSTOM_SCHEMA : String := "hyperpod_custom_inference_template"

def JUMPSTART_COMMAND : String := "hyp-jumpstart-endpoint"

def CUSTOM_COMMAND : String := "hyp-custom-endpoint"

def PYTORCH_SCHEMA : String := "hyperpod_pytorch_job_template"

def PYTORCH_COMMAND : String := "hyp-pytorch-job"

/-! ### common_utils.py : extract_version_from_args

A registry `Mapping[str, Type]` is represented by its list of version-string
keys (the mapped-to model classes never influence the control flow embedded
here); the Python `registry is not None` test becomes a `match` on
`Option (List String)`.  `sys.argv` is passed explicitly as `argv`. -/

/-- `next((arg for arg in sys.argv if arg.startswith('hyp-')), None)`. -/
def invokedCommand (argv : List String) : Option String :=
  argv.find? (fun arg => strStartsWith arg "hyp-")

/-- The `needs_validation` boolean of `extract_version_from_args`
(common_utils.py lines 33-37). -/
def needsValidation (schema_pkg : String) (invoked_command : Option String) : Bool :=
  (schema_pkg == JUMPSTART_SCHEMA && invoked_command == some JUMPSTART_COMMAND) ||
  (schema_pkg == CUSTOM_SCHEMA && invoked_command == some CUSTOM_COMMAND) ||
  (schema_pkg == PYTORCH_SCHEMA && invoked_command == some PYTORCH_COMMAND)

/-- common_utils.py lines 18-45.  `.error` carries the
`click.ClickException` message. -/
def extract_version_from_args (registry : Option (List String))
    (schema_pkg : String) (default : String) (argv : List String) :
    Except String String :=
  if !(argv.contains "--version") then
    .ok default
  else
    let idx := argv.indexOf "--version"
    if idx + 1 ≥ argv.length then
      .ok default
    else
      let requested_version := argv.getD (idx + 1) ""
      let invoked_command := invokedCommand argv
      let needs_validation := needsValidation schema_pkg invoked_command
      match registry with
      | some reg =>
        if !(reg.contains requested_version) then
          if needs_validation then
            .error ("Unsupported schema version: " ++ requested_version)
          else
            .ok default
        else
          .ok requested_version
      | none => .ok requested_version

/-! ### common_utils.py : get_latest_version

The Python sort key is `[int(x) for x in v.split('.')]` and Python compares
two such keys lexicographically, element by element, a strict prefix being
smaller.  `natListLt` is exactly that comparison on `List Nat`;
`versionKey` is the key function (`String.toNat?.getD 0` agrees with
Python's `int` on the dot-separated non-negative integer components that the
registry invariant guarantees, cf. `validVersionString`).  Python's `sorted`
is a stable sort of the keys; `List.insertionSort` with the reflexive
key comparison is also stable, so it computes the same list. -/

/-- Python's lexicographic comparison of two `list[int]` values. -/
def natListLt : List Nat → List Nat → Bool
  | _, [] => false
  | [], _ :: _ => true
  | a :: as, b :: bs => decide (a < b) || (a == b && natListLt as bs)

/-- `a <= b` on Python int lists, i.e. `not (b < a)`. -/
def natListLe (a b : List Nat) : Bool :=
  !(natListLt b a)

/-- `[int(x) for x in v.split('.')]`. -/
def versionKey (v : String) : List Nat :=
  (splitOnChar '.' v.data).map (fun s => (digitsToNat? s).getD 0)

/-- A dot-separated non-negative integer version string: every component
is non-empty and all digits (the domain on which `versionKey` coincides
with Python's `int` per component). -/
def validVersionString (v : String) : Bool :=
  (splitOnChar '.' v.data).all (fun s => !s.isEmpty && s.all Char.isDigit)

/-- The comparison `sorted(..., key=lambda v: [int(x) for x in v.split('.')])`
sorts by. -/
def verLe (a b : String) : Prop :=
  natListLe (versionKey a) (versionKey b) = true

instance : DecidableRel verLe := fun a b =>
  inferInstanceAs (Decidable (natListLe (versionKey a) (versionKey b) = true))

/-- common_utils.py lines 48-57.  `.error` carries the `ValueError`
message.  The `none` branch of the inner match is unreachable: sorting a
non-empty list yields a non-empty list. -/
def get_latest_version (registry : List String) : Except String String :=
  if registry.isEmpty then
    .error "Schema registry is empty"
  else
    let sorted_versions := List.insertionSort verLe registry
    match sorted_versions.getLast? with
    | some v => .ok v
    | none => .error "Schema registry is empty"

/-! ### common_utils.py : load_schema_for_version

The process-global dict `_SCHEMA_CACHE` becomes an explicit association
list threaded through the call ((base_package, version) keys, newest
binding first, exactly dict store/lookup).  `pkgutil.get_data(ver_pkg,
"schema.json")` and `json.loads` are external collaborators, abstracted as
the `fetch` and `parse` fields of a `SchemaEnv` (`fetch` returns `none`
where `get_data` returns `None`; `parse` returns `.error` where
`json.loads` raises).  Each call also reports how many times it invoked
`fetch`, making "the expensive fetch happens at most once" provable. -/

/-- The `_SCHEMA_CACHE` dict: keys are `(base_package, version)`. -/
abbrev SchemaCache (α : Type) : Type :=
  List ((String × String) × α)

/-- Dict lookup in the cache. -/
def cacheLookup {α : Type} (cache : SchemaCache α) (key : String × String) :
    Option α :=
  match cache.find? (fun e => decide (e.1 = key)) with
  | some e => some e.2
  | none => none

/-- Dict store `_SCHEMA_CACHE[cache_key] = schema`. -/
def cacheStore {α : Type} (cache : SchemaCache α) (key : String × String)
    (v : α) : SchemaCache α :=
  (key, v) :: cache

/-- External collaborators of `load_schema_for_version`. -/
structure SchemaEnv (α : Type) where
  fetch : String → Option String
  parse : String → Except String α

/-- `f"{base_package}.v{version.replace('.', '_')}"`. -/
def verPkg (base_package version : String) : String :=
  base_package ++ ".v" ++ (strReplaceChar version '.' '_')

/-- The `click.ClickException` message raised when the resource is missing. -/
def schemaNotFoundMsg (version base_package : String) : String :=
  "Could not load schema.json for version " ++ version ++
    " (looked in package " ++ verPkg base_package version ++ ")"

/-- common_utils.py lines 60-88.  Returns the result, the cache after the
call, and the number of `fetch` invocations the call performed. -/
def load_schema_for_version {α : Type} (env : SchemaEnv α)
    (version base_package : String) (cache : SchemaCache α) :
    Except String α × SchemaCache α × Nat :=
  let cache_key := (base_package, version)
  match cacheLookup cache cache_key with
  | some schema => (.ok schema, cache, 0)
  | none =>
    let ver_pkg := verPkg base_package version
    match env.fetch ver_pkg with
    | none => (.error (schemaNotFoundMsg version base_package), cache, 1)
    | some raw =>
      match env.parse raw with
      | .error e => (.error e, cache, 1)
      | .ok schema => (.ok schema, cacheStore cache cache_key schema, 1)

/-! ### inference_utils.py : option synthesizer

`generate_click_command.decorator` mutates `wrapped_func` by repeated
`click.option(...)` application.  In click, each such application appends
one parameter record to the decorated function's pending-parameter list,
and the command constructor then reverses that list, so the finished
command's parameters appear in the reverse of application order; that is
embedded below as `optionMemo` (application order) and `finalOptions`
(finished order).  A property's JSON-schema entry is embedded as
`PropSpec`; the `dict` passed from `schema.get("properties", {})` is a
`List (String × PropSpec)` in the object's declaration order, and
`schema.get("required", [])` a `List String`. -/

/-- The fragment of one JSON-schema property entry that the decorator
reads: `enum` (some = key present), `type`, `default` (some = key present
with the given rendered value), `description`. -/
structure PropSpec where
  enum : Option (List String) := none
  type : Option String := none
  default : Option String := none
  description : Option String := none
deriving DecidableEq, Repr

/-- The click parameter type chosen by the decorator's type inference. -/
inductive ClickParamType where
  | choice (values : List String)
  | int
  | float
  | bool
  | str
deriving DecidableEq, Repr

/-- inference_utils.py lines 113-123. -/
def inferClickType (spec : PropSpec) : ClickParamType :=
  match spec.enum with
  | some values => .choice values
  | none =>
    if spec.type == some "integer" then .int
    else if spec.type == some "number" then .float
    else if spec.type == some "boolean" then .bool
    else .str

/-- One synthesized command-line flag (the fields `click.option` is called
with, plus the source property name and provenance tags). -/
structure OptionDef where
  flag : String
  srcName : String
  required : Bool
  default : Option String
  show_default : Bool
  ctype : ClickParamType
  help : String
  jsonCallback : Bool
  fromSchema : Bool
deriving DecidableEq, Repr

/-- The `json_flags` dict of inference_utils.py lines 76-81, in insertion
order. -/
def json_flags : List (String × String) :=
  [("env", "JSON object of environment variables, e.g. '\x7b\"VAR1\":\"foo\",\"VAR2\":\"bar\"\x7d'"),
   ("dimensions", "JSON object of dimensions, e.g. '\x7b\"VAR1\":\"foo\",\"VAR2\":\"bar\"\x7d'"),
   ("resources_limits", "JSON object of resource limits, e.g. '\x7b\"cpu\":\"2\",\"memory\":\"4Gi\"\x7d'"),
   ("resources_requests", "JSON object of resource requests, e.g. '\x7b\"cpu\":\"1\",\"memory\":\"2Gi\"\x7d'")]

/-- inference_utils.py lines 93-99. -/
def excluded_props : List String :=
  ["version", "env", "dimensions", "resources_limits", "resources_requests"]

/-- `f"--{name.replace('_', '-')}"`. -/
def flagOf (name : String) : String :=
  "--" ++ strReplaceChar name '_' '-'

/-- The `click.option` call of inference_utils.py lines 83-91 (one fixed
JSON-blob flag). -/
def mkJsonOption (name help : String) : OptionDef :=
  { flag := flagOf name, srcName := name, required := false, default := none,
    show_default := false, ctype := .str, help := help,
    jsonCallback := true, fromSchema := false }

/-- The `click.option` call of inference_utils.py lines 125-132 (one
schema-derived flag). -/
def mkSchemaOption (name : String) (spec : PropSpec) (reqs : List String) :
    OptionDef :=
  { flag := flagOf name, srcName := name,
    required := reqs.contains name,
    default := spec.default, show_default := spec.default.isSome,
    ctype := inferClickType spec,
    help := spec.description.getD "",
    jsonCallback := false, fromSchema := true }

/-- The parameters accumulated on `wrapped_func`, in decorator-application
order: first the four fixed JSON flags (lines 83-91), then — when schema
loading succeeds with properties `props` and required list `reqs` — one
option per non-reserved property of `reversed(list(props.items()))`
(lines 103-132); when schema loading raises, the `except` clause
(lines 133-137) leaves only the four fixed flags (`schemaResult = none`). -/
def optionMemo (schemaResult : Option (List (String × PropSpec) × List String)) :
    List OptionDef :=
  let afterJson := json_flags.map (fun p => mkJsonOption p.1 p.2)
  match schemaResult with
  | none => afterJson
  | some (props, reqs) =>
    afterJson ++ props.reverse.filterMap (fun p =>
      if excluded_props.contains p.1 then none
      else some (mkSchemaOption p.1 p.2 reqs))

/-- The parameter order of the finished command (and of its help text):
click's command constructor reverses the accumulated parameter list. -/
def finalOptions (schemaResult : Option (List (String × PropSpec) × List String)) :
    List OptionDef :=
  (optionMemo schemaResult).reverse

/-- Python `repr` of the simple identifier parameter names used here. -/
def pyRepr (s : String) : String :=
  "'" ++ s ++ "'"

/-- inference_utils.py lines 43-49 (`_parse_json_flag`), with `json.loads`
abstracted as the external `jsonLoads` (returning `.error e` with the
`json.JSONDecodeError` text `e` exactly where Python raises).  `.error`
carries the `click.BadParameter` message. -/
def parse_json_flag {α : Type} (jsonLoads : String → Except String α)
    (paramName : String) (value : Option String) : Except String (Option α) :=
  match value with
  | none => .ok none
  | some v =>
    match jsonLoads v with
    | .ok parsed => .ok (some parsed)
    | .error e => .error (pyRepr paramName ++ " must be valid JSON: " ++ e)

/-! ### lazy_loading.py : command registry -/

/-- One entry of a command group in `COMMAND_REGISTRY`. -/
structure CmdInfo where
  module : String
  function : String
  help : String
  hidden : Bool := false
deriving DecidableEq, Repr

/-- The command groups of `COMMAND_REGISTRY` (lazy_loading.py lines
18-262), transcribed verbatim in dict insertion order.  The `'subgroups'`
entry maps to plain help strings rather than command tables and is kept
separately as `SUBGROUPS_HELP`. -/
def COMMAND_REGISTRY : List (String × List (String × CmdInfo)) :=
  [("list",
    [("hyp-pytorch-job",
      { module := "sagemaker.hyperpod.cli.commands.training",
        function := "list_jobs", help := "List PyTorch training jobs" }),
     ("hyp-jumpstart-endpoint",
      { module := "sagemaker.hyperpod.cli.commands.inference",
        function := "js_list", help := "List JumpStart endpoints" }),
     ("hyp-custom-endpoint",
      { module := "sagemaker.hyperpod.cli.commands.inference",
        function := "custom_list", help := "List custom endpoints" }),
     ("cluster-stack",
      { module := "sagemaker.hyperpod.cli.commands.cluster_stack",
        function := "list_cluster_stacks", help := "List cluster stacks" })]),
   ("create",
    [("hyp-pytorch-job",
      { module := "sagemaker.hyperpod.cli.commands.training",
        function := "pytorch_create", help := "Create a PyTorch training job" }),
     ("hyp-jumpstart-endpoint",
      { module := "sagemaker.hyperpod.cli.commands.inference",
        function := "js_create", help := "Create a JumpStart inference endpoint" }),
     ("hyp-custom-endpoint",
      { module := "sagemaker.hyperpod.cli.commands.inference",
        function := "custom_create", help := "Create a custom inference endpoint" }),
     ("cluster-stack",
      { module := "sagemaker.hyperpod.cli.commands.cluster_stack",
        function := "create_cluster_stack", help := "Create a new HyperPod cluster stack" }),
     ("_default_create",
      { module := "sagemaker.hyperpod.cli.commands.init",
        function := "_default_create", help := "Default create command",
        hidden := true })]),
   ("describe",
    [("hyp-pytorch-job",
      { module := "sagemaker.hyperpod.cli.commands.training",
        function := "pytorch_describe", help := "Describe a PyTorch training job" }),
     ("hyp-jumpstart-endpoint",
      { module := "sagemaker.hyperpod.cli.commands.inference",
        function := "js_describe", help := "Describe a JumpStart inference endpoint" }),
     ("hyp-custom-endpoint",
      { module := "sagemaker.hyperpod.cli.commands.inference",
        function := "custom_describe", help := "Describe a custom inference endpoint" }),
     ("cluster-stack",
      { module := "sagemaker.hyperpod.cli.commands.cluster_stack",
        function := "describe_cluster_stack", help := "Describe a HyperPod cluster stack" })]),
   ("delete",
    [("hyp-pytorch-job",
      { module := "sagemaker.hyperpod.cli.commands.training",
        function := "pytorch_delete", help := "Delete a PyTorch training job" }),
     ("hyp-jumpstart-endpoint",
      { module := "sagemaker.hyperpod.cli.commands.inference",
        function := "js_delete", help := "Delete a JumpStart inference endpoint" }),
     ("hyp-custom-endpoint",
      { module := "sagemaker.hyperpod.cli.commands.inference",
        function := "custom_delete", help := "Delete a custom inference endpoint" })]),
   ("update",
    [("cluster",
      { module := "sagemaker.hyperpod.cli.commands.cluster_stack",
        function := "update_cluster", help := "Update an existing HyperPod cluster configuration" })]),
   ("list_pods",
    [("hyp-pytorch-job",
      { module := "sagemaker.hyperpod.cli.commands.training",
        function := "pytorch_list_pods", help := "List pods for PyTorch training jobs" }),
     ("hyp-jumpstart-endpoint",
      { module := "sagemaker.hyperpod.cli.commands.inference",
        function := "js_list_pods", help := "List pods for JumpStart inference endpoints" }),
     ("hyp-custom-endpoint",
      { module := "sagemaker.hyperpod.cli.commands.inference",
        function := "custom_list_pods", help := "List pods for custom inference endpoints" })]),
   ("get_logs",
    [("hyp-pytorch-job",
      { module := "sagemaker.hyperpod.cli.commands.training",
        function := "pytorch_get_logs", help := "Get logs for PyTorch training job pods" }),
     ("hyp-jumpstart-endpoint",
      { module := "sagemaker.hyperpod.cli.commands.inference",
        function := "js_get_logs", help := "Get logs for JumpStart inference endpoint pods" }),
     ("hyp-custom-endpoint",
      { module := "sagemaker.hyperpod.cli.commands.inference",
        function := "custom_get_logs", help := "Get logs for custom inference endpoint pods" })]),
   ("get_operator_logs",
    [("hyp-pytorch-job",
      { module := "sagemaker.hyperpod.cli.commands.training",
        function := "pytorch_get_operator_logs", help := "Get operator logs for PyTorch training jobs" }),
     ("hyp-jumpstart-endpoint",
      { module := "sagemaker.hyperpod.cli.commands.inference",
        function := "js_get_operator_logs", help := "Get operator logs for JumpStart inference endpoints" }),
     ("hyp-custom-endpoint",
      { module := "sagemaker.hyperpod.cli.commands.inference",
        function := "custom_get_operator_logs", help := "Get operator logs for custom inference endpoints" })]),
   ("invoke",
    [("hyp-custom-endpoint",
      { module := "sagemaker.hyperpod.cli.commands.inference",
        function := "custom_invoke", help := "Invoke custom inference endpoints" }),
     ("hyp-jumpstart-endpoint",
      { module := "sagemaker.hyperpod.cli.commands.inference",
        function := "custom_invoke", help := "Invoke JumpStart inference endpoints" })]),
   ("exec",
    [("hyp-pytorch-job",
      { module := "sagemaker.hyperpod.cli.commands.training",
        function := "pytorch_exec", help := "Execute commands in PyTorch training job pods" })]),
   ("top_level",
    [("list-cluster",
      { module := "sagemaker.hyperpod.cli.commands.cluster",
        function := "list_cluster", help := "List available SageMaker HyperPod clusters" }),
     ("set-cluster-context",
      { module := "sagemaker.hyperpod.cli.commands.cluster",
        function := "set_cluster_context", help := "Configure kubectl for HyperPod cluster" }),
     ("get-cluster-context",
      { module := "sagemaker.hyperpod.cli.commands.cluster",
        function := "get_cluster_context", help := "Get current cluster context" }),
     ("get-monitoring",
      { module := "sagemaker.hyperpod.cli.commands.cluster",
        function := "get_monitoring", help := "Get monitoring configuration" }),
     ("init",
      { module := "sagemaker.hyperpod.cli.commands.init",
        function := "init", help := "Initialize HyperPod configuration" }),
     ("reset",
      { module := "sagemaker.hyperpod.cli.commands.init",
        function := "reset", help := "Reset HyperPod configuration" }),
     ("configure",
      { module := "sagemaker.hyperpod.cli.commands.init",
        function := "configure", help := "Configure HyperPod settings" }),
     ("validate",
      { module := "sagemaker.hyperpod.cli.commands.init",
        function := "validate", help := "Validate HyperPod configuration" })])]

/-- The `'subgroups'` entry of `COMMAND_REGISTRY` (help text for the main
CLI groups), lazy_loading.py lines 20-31. -/
def SUBGROUPS_HELP : List (String × String) :=
  [("create", "Create endpoints, pytorch jobs or cluster stacks."),
   ("list", "List endpoints, pytorch jobs or cluster stacks."),
   ("describe", "Describe endpoints, pytorch jobs or cluster stacks."),
   ("delete", "Delete endpoints or pytorch jobs."),
   ("update", "Update an existing HyperPod cluster configuration."),
   ("list-pods", "List pods for endpoints or pytorch jobs."),
   ("get-logs", "Get pod logs for endpoints or pytorch jobs."),
   ("invoke", "Invoke model endpoints."),
   ("get-operator-logs", "Get operator logs for endpoints."),
   ("exec", "Execute commands in pods for endpoints or pytorch jobs.")]

/-- `GROUP_SETTINGS` (lazy_loading.py lines 265-268): group → default_cmd. -/
def GROUP_SETTINGS : List (String × String) :=
  [("create", "_default_create")]

/-- `COMMAND_REGISTRY.get(registry_key, {})`. -/
def registryGroup (registry_key : String) : List (String × CmdInfo) :=
  match COMMAND_REGISTRY.find? (fun e => e.1 == registry_key) with
  | some e => e.2
  | none => []

/-- `GROUP_SETTINGS.get(registry_key, {}).get('default_cmd')`. -/
def groupDefaultCmd (registry_key : String) : Option String :=
  match GROUP_SETTINGS.find? (fun e => e.1 == registry_key) with
  | some e => some e.2
  | none => none

/-! ### lazy_loading.py : lazy dispatcher

Python's import machinery is abstracted: `ImportEnv.importModule` models
`importlib.import_module` (`.error` = the `ImportError` text) and a loaded
module is its `getattr` function over attribute names (`.error` = the
`AttributeError` text).  `κ` is the type of the click command objects
obtained.  The Python catch-all `except Exception` branch of
`_load_command` covers arbitrary runtime faults that have no counterpart
in a shallow embedding and is not modelled. -/

structure ImportEnv (κ : Type) where
  importModule : String → Except String (String → Except String κ)

/-- lazy_loading.py lines 271-302 (`_load_command`).  `.error` carries the
`click.ClickException` message, which wraps the original cause `e`. -/
def _load_command {κ : Type} (env : ImportEnv κ)
    (module_path function_name : String) : Except String κ :=
  match env.importModule module_path with
  | .error e =>
    .error ("Command unavailable: Failed to import module '" ++ module_path ++
      "': " ++ e)
  | .ok mod =>
    match mod function_name with
    | .error e =>
      .error ("Command unavailable: Function '" ++ function_name ++
        "' not found in module '" ++ module_path ++ "': " ++ e)
    | .ok command_function => .ok command_function

/-- lazy_loading.py lines 325-341 (`LazyGroup.list_commands`): visible
command names, sorted (Python `sorted` over strings; embedded as a stable
insertion sort by `≤`, which computes the same list). -/
def list_commands (registry_key : String) : List String :=
  let commands := registryGroup registry_key
  let visible_commands := (commands.filter (fun e => !e.2.hidden)).map (·.1)
  List.insertionSort strOrd visible_commands

/-- lazy_loading.py lines 343-358 (`LazyGroup.get_command`): a name present
in the group's registry is resolved through `_load_command` (whose failure
propagates); a name absent from it yields `None` — Python `return None`,
embedded as `.ok none` — without raising. -/
def get_command {κ : Type} (env : ImportEnv κ) (registry_key name : String) :
    Except String (Option κ) :=
  let commands := registryGroup registry_key
  match commands.find? (fun e => e.1 == name) with
  | some entry => (_load_command env entry.2.module entry.2.function).map some
  | none => .ok none

/-! ### default-subcommand rule (hyp_cli.py CLICommand, lazy_loading.py
LazyCLICommand) -/

/-- The default-subcommand injection both `CLICommand.parse_args`
(hyp_cli.py lines 44-54) and `LazyCLICommand.parse_args` (lazy_loading.py
lines 400-425) perform before delegating to `super().parse_args`,
abstracted over the group's known-command list (`self.commands` keys for
the former, `self.list_commands(ctx)` for the latter).  Python's
`if self.default_cmd:` is a truthiness test: `None` and `""` both skip
injection. -/
def injectDefault (default_cmd : Option String) (known : List String)
    (args : List String) : List String :=
  match default_cmd with
  | none => args
  | some d =>
    if d.isEmpty then args
    else
      let has_subcmd := args.any (fun a => !(strStartsWith a "-") && known.contains a)
      let asked_for_help := args.any (fun a => a == "-h" || a == "--help")
      if !has_subcmd && !asked_for_help then d :: args else args

/-- The keys of `self.commands` for the `create` group built in hyp_cli.py
(lines 169-191), in registration order.  Note click's `self.commands`
includes the hidden `_default_create`. -/
def hypCliCreateCommands : List String :=
  ["hyp-pytorch-job", "hyp-jumpstart-endpoint", "hyp-custom-endpoint",
   "_default_create"]

/-- `CLICommand.parse_args` for the `create` group
(`@cli.group(cls=CLICommand, default_cmd='_default_create')`,
hyp_cli.py line 58). -/
def CLICommand_parse_args_create (args : List String) : List String :=
  injectDefault (some "_default_create") hypCliCreateCommands args

/-- `default_cmd or GROUP_SETTINGS.get(registry_key, {}).get('default_cmd')`
(lazy_loading.py line 398): Python `or` falls through on falsy values. -/
def lazyDefaultCmd (registry_key : String) (default_cmd : Option String) :
    Option String :=
  match default_cmd with
  | some d => if d.isEmpty then groupDefaultCmd registry_key else some d
  | none => groupDefaultCmd registry_key

/-- `LazyCLICommand.parse_args` (lazy_loading.py lines 400-425): the known
commands are `self.list_commands(ctx)`, i.e. the visible names only. -/
def LazyCLICommand_parse_args (registry_key : String)
    (default_cmd : Option String) (args : List String) : List String :=
  injectDefault (lazyDefaultCmd registry_key default_cmd)
    (list_commands registry_key) args

/-! ### inference_utils.py : get_runtime_info

`generate_click_command.get_runtime_info` (lines 36-39) binds the default
version to `get_latest_version(schema_registry)` and resolves the version
through `extract_version_from_args`; a Python exception in either step
propagates. -/

def get_runtime_info (schema_registry : List String) (template_name : String)
    (argv : List String) : Except String (String × String) :=
  match get_latest_version schema_registry with
  | .error e => .error e
  | .ok default_version =>
    match extract_version_from_args (some schema_registry) template_name
        default_version argv with
    | .error e => .error e
    | .ok version => .ok (default_version, version)

/-! ## Theorems -/

/-! ### The Python list-of-int ordering is a total preorder -/

theorem natListLt_irrefl : ∀ l, natListLt l l = false
  | [] => rfl
  | a :: as => by simp [natListLt, natListLt_irrefl as]

theorem natListLe_refl (l : List Nat) : natListLe l l = true := by
  simp [natListLe, natListLt_irrefl l]

theorem natListLt_asymm : ∀ a b, natListLt a b = true → natListLt b a = false
  | _, [], h => by simp [natListLt] at h
  | [], _ :: _, _ => by simp [natListLt]
  | a :: as, b :: bs, h => by
    simp only [natListLt, Bool.or_eq_true, decide_eq_true_eq, Bool.and_eq_true,
      beq_iff_eq] at h ⊢
    rcases h with h | ⟨rfl, h⟩
    · simp only [Bool.or_eq_false_iff, decide_eq_false_iff_not, Bool.and_eq_false_iff,
        beq_eq_false_iff_ne, ne_eq]
      exact ⟨Nat.lt_asymm h, Or.inl (Nat.ne_of_gt h)⟩
    · simp [natListLt_irrefl, natListLt_asymm as bs h]

theorem natListLe_total (a b : List Nat) :
    natListLe a b = true ∨ natListLe b a = true := by
  unfold natListLe
  rcases h : natListLt b a with _ | _
  · exact Or.inl rfl
  · exact Or.inr (by simp [natListLt_asymm b a h])

theorem natListLt_le_trans :
    ∀ a b c, natListLt b a = false → natListLt c b = false → natListLt c a = false
  | [], _, c, _, _ => by cases c <;> simp [natListLt]
  | _ :: _, [], _, h1, _ => by simp [natListLt] at h1
  | _ :: _, _ :: _, [], _, h2 => by simp [natListLt] at h2
  | x :: as, y :: bs, z :: cs, h1, h2 => by
    simp only [natListLt, Bool.or_eq_false_iff, decide_eq_false_iff_not,
      Bool.and_eq_false_iff, beq_eq_false_iff_ne, ne_eq] at h1 h2 ⊢
    obtain ⟨hyx, h1'⟩ := h1
    obtain ⟨hzy, h2'⟩ := h2
    refine ⟨fun hzx => ?_, ?_⟩
    · omega
    · by_cases hz : z = x
      · subst hz
        have hy : y = z := by omega
        subst hy
        rcases h1' with h | h
        · exact absurd rfl h
        · rcases h2' with h' | h'
          · exact absurd rfl h'
          · exact Or.inr (natListLt_le_trans as bs cs h h')
      · exact Or.inl hz

theorem natListLe_trans (a b c : List Nat) (h1 : natListLe a b = true)
    (h2 : natListLe b c = true) : natListLe a c = true := by
  unfold natListLe at h1 h2 ⊢
  simp only [Bool.not_eq_true'] at h1 h2 ⊢
  exact natListLt_le_trans a b c h1 h2

instance : IsTotal String verLe :=
  ⟨fun a b => natListLe_total (versionKey a) (versionKey b)⟩

instance : IsTrans String verLe :=
  ⟨fun a b c => natListLe_trans (versionKey a) (versionKey b) (versionKey c)⟩

theorem verLe_refl (a : String) : verLe a a :=
  natListLe_refl (versionKey a)

/-- In a list sorted by `verLe`, every element is `verLe` the last one. -/
theorem sorted_verLe_getLast {l : List String} (hne : l ≠ [])
    (hs : List.Sorted verLe l) : ∀ a ∈ l, verLe a (l.getLast hne) := by
  intro a ha
  have hd : l.dropLast ++ [l.getLast hne] = l := List.dropLast_append_getLast hne
  rw [← hd] at ha hs
  rcases List.mem_append.mp ha with h | h
  · exact (List.pairwise_append.mp hs).2.2 a h _ (List.mem_singleton_self _)
  · rw [List.mem_singleton] at h
    subst h
    exact verLe_refl _

/-- C3: for every non-empty registry whose keys are dot-separated integer
version strings, `get_latest_version` returns a key of the registry that is
maximal under componentwise integer ordering of the parsed versions (so for
keys where lexicographic string order disagrees, such as "1.2" vs "1.10",
the componentwise maximum is returned); for the empty registry it fails
with the empty-registry error. -/
theorem get_latest_version_max (registry : List String) :
    (registry = [] →
      get_latest_version registry = .error "Schema registry is empty") ∧
    (registry ≠ [] → (∀ k ∈ registry, validVersionString k = true) →
      ∃ m, get_latest_version registry = .ok m ∧ m ∈ registry ∧
        ∀ k ∈ registry, natListLe (versionKey k) (versionKey m) = true) := by
  constructor
  · rintro rfl
    rfl
  · intro hne _hvalid
    have hperm := List.perm_insertionSort verLe registry
    have hsne : List.insertionSort verLe registry ≠ [] := by
      intro h
      exact hne (List.Perm.eq_nil (h ▸ hperm).symm)
    have hsorted : List.Sorted verLe (List.insertionSort verLe registry) :=
      List.sorted_insertionSort verLe registry
    refine ⟨(List.insertionSort verLe registry).getLast hsne, ?_, ?_, ?_⟩
    · simp only [get_latest_version, List.isEmpty_iff, hne, if_false,
        List.getLast?_eq_getLast _ hsne]
    · exact hperm.subset (List.getLast_mem hsne)
    · intro k hk
      exact sorted_verLe_getLast hsne hsorted k (hperm.mem_iff.mpr hk)

/-- Witness for C3 on the registry from the spec's lexicographic-vs-
componentwise example: the latest of "1.2" and "1.10" is "1.10". -/
theorem get_latest_version_max_witness :
    get_latest_version ["1.2", "1.10"] = .ok "1.10" ∧
    (∃ m, get_latest_version ["1.2", "1.10"] = .ok m ∧ m ∈ ["1.2", "1.10"] ∧
      ∀ k ∈ ["1.2", "1.10"], natListLe (versionKey k) (versionKey m) = true) ∧
    get_latest_version ([] : List String) = .error "Schema registry is empty" :=
  ⟨by decide,
   (get_latest_version_max ["1.2", "1.10"]).2 (by decide) (by decide),
   (get_latest_version_max []).1 rfl⟩

/-- C1: for every registry `R` and argv, if `--version` is absent, or is
the last token (followed by nothing), or carries a value `X ∉ R` while
strict validation does not apply (the invoked command does not belong to
this schema family), then `extract_version_from_args` returns the supplied
default and does not raise; and `get_runtime_info` binds that default to
`get_latest_version R`. -/
theorem resolve_version_returns_default (R : List String)
    (schema_pkg default : String) (argv : List String) :
    (argv.contains "--version" = false →
      extract_version_from_args (some R) schema_pkg default argv = .ok default) ∧
    (argv.contains "--version" = true →
      argv.indexOf "--version" + 1 ≥ argv.length →
      extract_version_from_args (some R) schema_pkg default argv = .ok default) ∧
    (∀ X, argv.contains "--version" = true →
      argv.indexOf "--version" + 1 < argv.length →
      argv.getD (argv.indexOf "--version" + 1) "" = X →
      R.contains X = false →
      needsValidation schema_pkg (invokedCommand argv) = false →
      extract_version_from_args (some R) schema_pkg default argv = .ok default) ∧
    (∀ dv, get_latest_version R = .ok dv →
      extract_version_from_args (some R) schema_pkg dv argv = .ok dv →
      get_runtime_info R schema_pkg argv = .ok (dv, dv)) := by
  refine ⟨?_, ?_, ?_, ?_⟩
  · intro h
    have h' : "--version" ∉ argv := by simpa using h
    simp [extract_version_from_args, h']
  · intro h hlen
    simp [extract_version_from_args, h, hlen]
  · intro X h hlt hX hR hval
    have hX' : argv[argv.indexOf "--version" + 1]?.getD "" = X := by
      simpa using hX
    have hR' : X ∉ R := by simpa using hR
    simp [extract_version_from_args, h, Nat.not_le.mpr hlt, hX', hR', hval]
  · intro dv hdv hex
    simp [get_runtime_info, hdv, hex]

/-- Witness for C1: the three no-raise default cases and the caller
binding, on concrete inputs (in the third, `--version 9.9` with
`9.9 ∉ R = ["1.0"]` and no strict validation, since no `hyp-` token is the
command of the `x` schema family). -/
theorem resolve_version_returns_default_witness :
    extract_version_from_args (some ["1.0"]) "x" "1.0" ["hyp-a"] = .ok "1.0" ∧
    extract_version_from_args (some ["1.0"]) "x" "1.0" ["--version"] = .ok "1.0" ∧
    extract_version_from_args (some ["1.0"]) "x" "1.0" ["hyp-a", "--version", "9.9"] = .ok "1.0" ∧
    get_runtime_info ["1.0"] "x" ["hyp-a"] = .ok ("1.0", "1.0") :=
  ⟨(resolve_version_returns_default ["1.0"] "x" "1.0" ["hyp-a"]).1 (by decide),
   (resolve_version_returns_default ["1.0"] "x" "1.0" ["--version"]).2.1
     (by decide) (by decide),
   (resolve_version_returns_default ["1.0"] "x" "1.0"
       ["hyp-a", "--version", "9.9"]).2.2.1 "9.9"
     (by decide) (by decide) (by decide) (by decide) (by decide),
   (resolve_version_returns_default ["1.0"] "x" "1.0" ["hyp-a"]).2.2.2 "1.0"
     (by decide) (by decide)⟩

/-- C2: for every registry `R`, if argv carries `--version X` and strict
validation applies (the `hyp-`-shaped token in argv is the command of this
schema family, `needsValidation`), then `X ∉ R` raises the
unsupported-version error naming `X`; and whenever `X ∈ R` the function
returns `X`. -/
theorem resolve_version_strict (R : List String) (schema_pkg default : String)
    (argv : List String) (X : String)
    (h : argv.contains "--version" = true)
    (hlt : argv.indexOf "--version" + 1 < argv.length)
    (hX : argv.getD (argv.indexOf "--version" + 1) "" = X) :
    (R.contains X = false →
      needsValidation schema_pkg (invokedCommand argv) = true →
      extract_version_from_args (some R) schema_pkg default argv =
        .error ("Unsupported schema version: " ++ X)) ∧
    (R.contains X = true →
      extract_version_from_args (some R) schema_pkg default argv = .ok X) := by
  have hX' : argv[argv.indexOf "--version" + 1]?.getD "" = X := by
    simpa using hX
  have h' : "--version" ∈ argv := by simpa using h
  constructor
  · intro hR hval
    have hR' : X ∉ R := by simpa using hR
    simp [extract_version_from_args, h', Nat.not_le.mpr hlt, hX', hR', hval]
  · intro hR
    have hR' : X ∈ R := by simpa using hR
    simp [extract_version_from_args, h', Nat.not_le.mpr hlt, hX', hR']

/-- Witness for C2 on the jumpstart schema family with the jumpstart
command invoked: `--version 9.9` with registry `["1.0"]` raises; with
registry `["9.9"]` it returns `9.9`. -/
theorem resolve_version_strict_witness :
    extract_version_from_args (some ["1.0"]) JUMPSTART_SCHEMA "1.0"
      ["hyp-jumpstart-endpoint", "--version", "9.9"] =
        .error ("Unsupported schema version: " ++ "9.9") ∧
    extract_version_from_args (some ["9.9"]) JUMPSTART_SCHEMA "9.9"
      ["hyp-jumpstart-endpoint", "--version", "9.9"] = .ok "9.9" :=
  ⟨(resolve_version_strict ["1.0"] JUMPSTART_SCHEMA "1.0"
      ["hyp-jumpstart-endpoint", "--version", "9.9"] "9.9"
      (by decide) (by decide) (by decide)).1 (by decide) (by decide),
   (resolve_version_strict ["9.9"] JUMPSTART_SCHEMA "9.9"
      ["hyp-jumpstart-endpoint", "--version", "9.9"] "9.9"
      (by decide) (by decide) (by decide)).2 (by decide)⟩

/-- C4: schema-cache idempotence.  Any call performs at most one fetch; a
successful call stores its result so that an immediately repeated call for
the same key returns the identical parsed content with no fetch and no
state change; a key already stored is returned verbatim with no fetch; and
no call (for any key) disturbs an existing stored binding, so a stored
value is returned verbatim for the lifetime of the process. -/
theorem schema_cache_idempotent {α : Type} (env : SchemaEnv α)
    (version base_package : String) (cache : SchemaCache α) :
    (∀ res st n,
      load_schema_for_version env version base_package cache = (res, st, n) →
      n ≤ 1) ∧
    (∀ v st n,
      load_schema_for_version env version base_package cache = (.ok v, st, n) →
      load_schema_for_version env version base_package st = (.ok v, st, 0)) ∧
    (∀ v, cacheLookup cache (base_package, version) = some v →
      load_schema_for_version env version base_package cache = (.ok v, cache, 0)) ∧
    (∀ version₂ base_package₂ res st n v,
      load_schema_for_version env version₂ base_package₂ cache = (res, st, n) →
      cacheLookup cache (base_package, version) = some v →
      cacheLookup st (base_package, version) = some v) := by
  refine ⟨?_, ?_, ?_, ?_⟩
  · intro res st n hcall
    simp only [load_schema_for_version] at hcall
    split at hcall
    · simp only [Prod.mk.injEq] at hcall
      obtain ⟨-, -, rfl⟩ := hcall
      exact Nat.zero_le 1
    · split at hcall
      · simp only [Prod.mk.injEq] at hcall
        obtain ⟨-, -, rfl⟩ := hcall
        exact Nat.le_refl 1
      · split at hcall
        · simp only [Prod.mk.injEq] at hcall
          obtain ⟨-, -, rfl⟩ := hcall
          exact Nat.le_refl 1
        · simp only [Prod.mk.injEq] at hcall
          obtain ⟨-, -, rfl⟩ := hcall
          exact Nat.le_refl 1
  · intro v st n hcall
    simp only [load_schema_for_version] at hcall ⊢
    split at hcall
    · rename_i schema hhit
      simp only [Prod.mk.injEq] at hcall
      obtain ⟨hv, rfl, -⟩ := hcall
      injection hv with hveq
      subst hveq
      simp [hhit]
    · rename_i hmiss
      split at hcall
      · simp at hcall
      · rename_i raw hraw
        split at hcall
        · simp at hcall
        · rename_i schema hparse
          simp only [Prod.mk.injEq] at hcall
          obtain ⟨hv, rfl, -⟩ := hcall
          injection hv with hveq
          subst hveq
          have hlook : cacheLookup
              (cacheStore cache (base_package, version) schema)
              (base_package, version) = some schema := by
            simp [cacheLookup, cacheStore, List.find?]
          simp [hlook]
  · intro v hv
    simp only [load_schema_for_version, hv]
  · intro version₂ base_package₂ res st n v hcall hv
    simp only [load_schema_for_version] at hcall
    split at hcall
    · simp only [Prod.mk.injEq] at hcall
      obtain ⟨-, rfl, -⟩ := hcall
      exact hv
    · rename_i hmiss
      split at hcall
      · simp only [Prod.mk.injEq] at hcall
        obtain ⟨-, rfl, -⟩ := hcall
        exact hv
      · split at hcall
        · simp only [Prod.mk.injEq] at hcall
          obtain ⟨-, rfl, -⟩ := hcall
          exact hv
        · rename_i schema hparse
          simp only [Prod.mk.injEq] at hcall
          obtain ⟨-, rfl, -⟩ := hcall
          have hne : (base_package₂, version₂) ≠ (base_package, version) := by
            intro he
            rw [he, hv] at hmiss
            cases hmiss
          simp only [cacheLookup, cacheStore] at hv ⊢
          rw [List.find?_cons_of_neg _ (by simp [hne])]
          exact hv

/-- Witness for C4, with a fetch that returns a fixed raw document and a
parse that returns `7`: the first call on the empty cache fetches and
stores, the second returns the identical content with no fetch. -/
theorem schema_cache_idempotent_witness :
    load_schema_for_version
      (⟨fun _ => some "raw", fun _ => .ok 7⟩ : SchemaEnv Nat) "1.0" "fam"
      (cacheStore [] ("fam", "1.0") 7) = (.ok 7, cacheStore [] ("fam", "1.0") 7, 0) ∧
    cacheLookup (cacheStore [] ("fam", "1.0") 7) ("fam", "1.0") = some 7 :=
  ⟨(schema_cache_idempotent (⟨fun _ => some "raw", fun _ => .ok 7⟩ : SchemaEnv Nat)
      "1.0" "fam" []).2.1 7 (cacheStore [] ("fam", "1.0") 7) 1 (by decide),
   by decide⟩

/-- C10: when the versioned resource is missing (`fetch` yields nothing)
and the key is not cached, `load_schema_for_version` fails with the
schema-not-found error and leaves the cache unchanged, so a subsequent call
for the same key performs the fetch again instead of returning a poisoned
cached value. -/
theorem schema_cache_unchanged_on_missing_resource {α : Type}
    (env : SchemaEnv α) (version base_package : String) (cache : SchemaCache α)
    (hmiss : cacheLookup cache (base_package, version) = none)
    (hfetch : env.fetch (verPkg base_package version) = none) :
    load_schema_for_version env version base_package cache =
      (.error (schemaNotFoundMsg version base_package), cache, 1) ∧
    load_schema_for_version env version base_package
        (load_schema_for_version env version base_package cache).2.1 =
      (.error (schemaNotFoundMsg version base_package), cache, 1) := by
  have h1 : load_schema_for_version env version base_package cache =
      (.error (schemaNotFoundMsg version base_package), cache, 1) := by
    simp only [load_schema_for_version, hmiss, hfetch]
  exact ⟨h1, by rw [h1]; exact h1⟩

/-- Witness for C10 with a fetch that always fails: the call on the empty
cache errors, keeps the cache empty, and the repeated call fetches again. -/
theorem schema_cache_unchanged_on_missing_resource_witness :
    load_schema_for_version
      (⟨fun _ => none, fun _ => .ok 7⟩ : SchemaEnv Nat) "1.0" "fam" [] =
      (.error (schemaNotFoundMsg "1.0" "fam"), [], 1) ∧
    load_schema_for_version
      (⟨fun _ => none, fun _ => .ok 7⟩ : SchemaEnv Nat) "1.0" "fam"
      (load_schema_for_version
        (⟨fun _ => none, fun _ => .ok 7⟩ : SchemaEnv Nat) "1.0" "fam" []).2.1 =
      (.error (schemaNotFoundMsg "1.0" "fam"), [], 1) :=
  schema_cache_unchanged_on_missing_resource
    (⟨fun _ => none, fun _ => .ok 7⟩ : SchemaEnv Nat) "1.0" "fam" []
    (by decide) (by decide)

/-- The injection condition of `injectDefault`, in propositional form: the
default is prepended exactly when no non-flag token is a known subcommand
and no token asks for help. -/
theorem injectDefault_eq_cons_iff (known args : List String) (d : String)
    (hd : d.isEmpty = false) :
    injectDefault (some d) known args = d :: args ↔
      ((∀ a ∈ args, strStartsWith a "-" = true ∨ a ∉ known) ∧
       (∀ a ∈ args, a ≠ "-h" ∧ a ≠ "--help")) := by
  simp only [injectDefault, hd, Bool.false_eq_true, if_false]
  by_cases hc : ((!(args.any fun a => !(strStartsWith a "-") && known.contains a)) &&
      (!(args.any fun a => a == "-h" || a == "--help"))) = true
  · rw [if_pos hc]
    simp only [true_iff, eq_self_iff_true]
    simp only [Bool.and_eq_true, Bool.not_eq_true', List.any_eq_false,
      Bool.and_eq_false_iff, Bool.not_eq_false', Bool.or_eq_false_iff,
      beq_eq_false_iff_ne, ne_eq] at hc
    simp at hc
    refine ⟨fun a ha => ?_, hc.2⟩
    cases h : strStartsWith a "-"
    · exact Or.inr (hc.1 a ha h)
    · exact Or.inl rfl
  · rw [if_neg hc]
    simp at hc
    constructor
    · intro h
      exact absurd h.symm (List.cons_ne_self d args)
    · rintro ⟨h1, h2⟩
      exfalso
      obtain ⟨x, hx, hximp⟩ :=
        hc (fun a ha hf => (h1 a ha).resolve_left (by simp [hf]))
      obtain ⟨hxh, hxhelp⟩ := h2 x hx
      exact hxhelp (hximp hxh)

/-- `injectDefault` either leaves the arguments unchanged or prepends
exactly the default command. -/
theorem injectDefault_eq_or (d : String) (known args : List String) :
    injectDefault (some d) known args = args ∨
    injectDefault (some d) known args = d :: args := by
  cases h1 : d.isEmpty
  · simp only [injectDefault, h1, Bool.false_eq_true, if_false]
    by_cases h2 : ((!(args.any fun a => !(strStartsWith a "-") && known.contains a)) &&
        (!(args.any fun a => a == "-h" || a == "--help"))) = true
    · right
      rw [if_pos h2]
    · left
      rw [if_neg h2]
  · left
    simp [injectDefault, h1]

/-- C5: default-subcommand rule for the `create` group.  Both the
click-level `CLICommand.parse_args` (whose known commands are the keys of
`self.commands`, including the hidden `_default_create`) and the
registry-level `LazyCLICommand.parse_args` (whose known commands are the
visible names) prepend `_default_create` to the arguments exactly when no
non-flag token is a known subcommand and no token is `-h`/`--help`, and
never produce anything else than the unchanged or prepended arguments; in
particular `--foo bar` is rewritten while `--help` and
`hyp-pytorch-job --help` are left unchanged. -/
theorem default_subcommand_injection :
    (∀ args, CLICommand_parse_args_create args = "_default_create" :: args ↔
      ((∀ a ∈ args, strStartsWith a "-" = true ∨ a ∉ hypCliCreateCommands) ∧
       (∀ a ∈ args, a ≠ "-h" ∧ a ≠ "--help"))) ∧
    (∀ args, CLICommand_parse_args_create args = args ∨
      CLICommand_parse_args_create args = "_default_create" :: args) ∧
    (∀ args, LazyCLICommand_parse_args "create" none args =
        "_default_create" :: args ↔
      ((∀ a ∈ args, strStartsWith a "-" = true ∨ a ∉ list_commands "create") ∧
       (∀ a ∈ args, a ≠ "-h" ∧ a ≠ "--help"))) ∧
    (∀ args, LazyCLICommand_parse_args "create" none args = args ∨
      LazyCLICommand_parse_args "create" none args =
        "_default_create" :: args) ∧
    CLICommand_parse_args_create ["--foo", "bar"] =
      ["_default_create", "--foo", "bar"] ∧
    CLICommand_parse_args_create ["--help"] = ["--help"] ∧
    CLICommand_parse_args_create ["hyp-pytorch-job", "--help"] =
      ["hyp-pytorch-job", "--help"] ∧
    LazyCLICommand_parse_args "create" none ["--foo", "bar"] =
      ["_default_create", "--foo", "bar"] ∧
    LazyCLICommand_parse_args "create" none ["--help"] = ["--help"] ∧
    LazyCLICommand_parse_args "create" none ["hyp-pytorch-job", "--help"] =
      ["hyp-pytorch-job", "--help"] := by
  have hlazy : ∀ args, LazyCLICommand_parse_args "create" none args =
      injectDefault (some "_default_create") (list_commands "create") args := by
    intro args
    have h : lazyDefaultCmd "create" none = some "_default_create" := by decide
    unfold LazyCLICommand_parse_args
    rw [h]
  refine ⟨?_, ?_, ?_, ?_,
    by decide, by decide, by decide, by decide, by decide, by decide⟩
  · intro args
    unfold CLICommand_parse_args_create
    exact injectDefault_eq_cons_iff hypCliCreateCommands args "_default_create"
      (by decide)
  · intro args
    unfold CLICommand_parse_args_create
    exact injectDefault_eq_or "_default_create" hypCliCreateCommands args
  · intro args
    rw [hlazy args]
    exact injectDefault_eq_cons_iff (list_commands "create") args
      "_default_create" (by decide)
  · intro args
    rw [hlazy args]
    exact injectDefault_eq_or "_default_create" (list_commands "create") args

/-- Witness for C5: the injection criterion applied to the concrete
argument list `["--foo", "bar"]`. -/
theorem default_subcommand_injection_witness :
    CLICommand_parse_args_create ["--foo", "bar"] =
      ["_default_create", "--foo", "bar"] :=
  (default_subcommand_injection.1 ["--foo", "bar"]).mpr ⟨by decide, by decide⟩

/-- When no property name is reserved, the decorator's filter keeps every
property. -/
theorem filterMap_no_excluded (reqs : List String) :
    ∀ l : List (String × PropSpec),
      (∀ p ∈ l, excluded_props.contains p.1 = false) →
      (l.filterMap (fun p =>
        if excluded_props.contains p.1 then none
        else some (mkSchemaOption p.1 p.2 reqs))) =
      l.map (fun p => mkSchemaOption p.1 p.2 reqs)
  | [], _ => rfl
  | p :: ps, h => by
    rw [List.filterMap_cons, List.map_cons, h p (List.mem_cons_self p ps),
      filterMap_no_excluded reqs ps (fun q hq => h q (List.mem_cons_of_mem p hq))]
    rfl

/-- C6: synthesized-flag ordering.  The decorator walks the properties in
reverse declaration order and each `click.option` application prepends the
flag to the finished command's parameter list, so the finished command
lists the schema-derived flags in exactly the schema's declaration order
(followed by the four fixed JSON flags, in reverse of their own
application order). -/
theorem option_flag_ordering (props : List (String × PropSpec))
    (reqs : List String)
    (h : ∀ p ∈ props, excluded_props.contains p.1 = false) :
    (finalOptions (some (props, reqs))).map (fun o => o.flag) =
      props.map (fun p => flagOf p.1) ++
        ((json_flags.map (fun p => flagOf p.1)).reverse) := by
  unfold finalOptions optionMemo
  rw [List.reverse_append, List.map_append,
    filterMap_no_excluded reqs props.reverse
      (fun p hp => h p (List.mem_reverse.mp hp))]
  simp only [List.map_reverse, List.reverse_reverse, List.map_map]
  rfl

/-- Witness for C6 on a schema declaring properties `[a, b, c]`, none
reserved: the flags appear as `--a`, `--b`, `--c` followed by the fixed
JSON flags. -/
theorem option_flag_ordering_witness :
    (finalOptions (some ([("a", {}), ("b", {}), ("c", {})], []))).map
        (fun o => o.flag) =
      ["--a", "--b", "--c", "--resources-requests", "--resources-limits",
       "--dimensions", "--env"] :=
  (option_flag_ordering [("a", {}), ("b", {}), ("c", {})] []
    (by decide)).trans (by decide)

/-- C7: reserved-property exclusion.  No schema-derived option synthesized
by the decorator has one of the reserved source property names, whatever
the loaded schema's `properties` map contains. -/
theorem reserved_props_excluded
    (schemaResult : Option (List (String × PropSpec) × List String))
    (o : OptionDef) (ho : o ∈ finalOptions schemaResult)
    (hs : o.fromSchema = true) :
    excluded_props.contains o.srcName = false := by
  rcases schemaResult with _ | ⟨props, reqs⟩
  · unfold finalOptions optionMemo at ho
    rw [List.mem_reverse] at ho
    obtain ⟨p, hp, hpe⟩ := List.mem_map.mp ho
    subst hpe
    simp [mkJsonOption] at hs
  · unfold finalOptions optionMemo at ho
    rw [List.mem_reverse] at ho
    rcases List.mem_append.mp ho with hjson | hschema
    · obtain ⟨p, hp, hpe⟩ := List.mem_map.mp hjson
      subst hpe
      simp [mkJsonOption] at hs
    · obtain ⟨p, hp, hif⟩ := List.mem_filterMap.mp hschema
      cases hcontains : excluded_props.contains p.1
      · rw [hcontains] at hif
        simp only [Bool.false_eq_true, if_false, Option.some.injEq] at hif
        subst hif
        exact hcontains
      · rw [hcontains] at hif
        simp at hif

/-- Witness for C7: with a schema declaring the reserved `env` next to a
plain `a`, the schema-derived option for `a` is produced and its source
property is not reserved. -/
theorem reserved_props_excluded_witness :
    excluded_props.contains
      (mkSchemaOption "a" {} []).srcName = false :=
  reserved_props_excluded (some ([("env", {}), ("a", {})], []))
    (mkSchemaOption "a" {} []) (by decide) (by decide)

/-- C8: JSON-blob flag parsing.  For each of the four fixed flags, an
absent value passes through as `None`, a value `json.loads` accepts yields
the parsed JSON value, and a value `json.loads` rejects fails with the
invalid-JSON message naming the flag's parameter and the parse error; and
every synthesized command carries the flag. -/
theorem json_flag_parsing {α : Type} (jsonLoads : String → Except String α)
    (name : String) (hmem : name ∈ json_flags.map (fun p => p.1)) :
    parse_json_flag jsonLoads name none = .ok none ∧
    (∀ v parsed, jsonLoads v = .ok parsed →
      parse_json_flag jsonLoads name (some v) = .ok (some parsed)) ∧
    (∀ v e, jsonLoads v = .error e →
      parse_json_flag jsonLoads name (some v) =
        .error (pyRepr name ++ " must be valid JSON: " ++ e)) ∧
    (∀ schemaResult, ∃ help, mkJsonOption name help ∈ finalOptions schemaResult) := by
  refine ⟨rfl, ?_, ?_, ?_⟩
  · intro v parsed hv
    simp [parse_json_flag, hv]
  · intro v e hv
    simp [parse_json_flag, hv]
  · intro schemaResult
    obtain ⟨p, hp, hpe⟩ := List.mem_map.mp hmem
    subst hpe
    refine ⟨p.2, ?_⟩
    unfold finalOptions optionMemo
    rw [List.mem_reverse]
    rcases schemaResult with _ | ⟨props, reqs⟩
    · exact List.mem_map.mpr ⟨p, hp, rfl⟩
    · exact List.mem_append.mpr (Or.inl (List.mem_map.mpr ⟨p, hp, rfl⟩))

/-- Witness for C8 on the `env` flag, with a `json.loads` model accepting
exactly the string "42". -/
theorem json_flag_parsing_witness :
    parse_json_flag
      (fun s => if s = "42" then Except.ok 42 else Except.error "Expecting value")
      "env" (some "boom") =
      .error (pyRepr "env" ++ " must be valid JSON: " ++ "Expecting value") ∧
    parse_json_flag
      (fun s => if s = "42" then Except.ok 42 else Except.error "Expecting value")
      "env" (some "42") = .ok (some 42) ∧
    parse_json_flag
      (fun s => if s = "42" then Except.ok 42 else Except.error "Expecting value")
      "env" none = .ok none ∧
    ∃ help, mkJsonOption "env" help ∈ finalOptions none :=
  ⟨(json_flag_parsing
      (fun s => if s = "42" then Except.ok 42 else Except.error "Expecting value")
      "env" (by decide)).2.2.1 "boom" "Expecting value" (by decide),
   (json_flag_parsing
      (fun s => if s = "42" then Except.ok 42 else Except.error "Expecting value")
      "env" (by decide)).2.1 "42" 42 (by decide),
   (json_flag_parsing
      (fun s => if s = "42" then Except.ok 42 else Except.error "Expecting value")
      "env" (by decide)).1,
   (json_flag_parsing
      (fun s => if s = "42" then Except.ok 42 else Except.error "Expecting value")
      "env" (by decide)).2.2.2 none⟩

/-- C9 counterexample: resolving a command name absent from a known
group's registry does not raise a command-unavailable error — with any
machinery for importing, `get_command` on the `list` group and the name
`nonexistent` returns `None` (embedded `.ok none`), leaving the
no-such-command report to the CLI framework. -/
theorem get_command_unknown_name_no_error :
    get_command (κ := Unit) ⟨fun _ => .error "ImportError"⟩ "list"
      "nonexistent" = .ok none ∧
    ∀ e, get_command (κ := Unit) ⟨fun _ => .error "ImportError"⟩ "list"
      "nonexistent" ≠ .error e := by
  have h : get_command (κ := Unit) ⟨fun _ => .error "ImportError"⟩ "list"
      "nonexistent" = .ok none := by decide
  exact ⟨h, fun e he => by rw [h] at he; cases he⟩

/-- C9 amended: `_load_command` wraps an import failure or a missing
function attribute in a command-unavailable error carrying the original
cause; and `get_command` on a name absent from a group's registry raises
nothing, returning no command (`None`) so the process reports a normal
command failure rather than crashing. -/
theorem lazy_resolution_error_handling {κ : Type} (env : ImportEnv κ)
    (module_path function_name : String) :
    (∀ e, env.importModule module_path = .error e →
      _load_command env module_path function_name =
        .error ("Command unavailable: Failed to import module '" ++
          module_path ++ "': " ++ e)) ∧
    (∀ mod e, env.importModule module_path = .ok mod →
      mod function_name = .error e →
      _load_command env module_path function_name =
        .error ("Command unavailable: Function '" ++ function_name ++
          "' not found in module '" ++ module_path ++ "': " ++ e)) ∧
    (∀ registry_key name,
      (registryGroup registry_key).find? (fun entry => entry.1 == name) = none →
      get_command env registry_key name = .ok none) := by
  refine ⟨?_, ?_, ?_⟩
  · intro e he
    simp [_load_command, he]
  · intro mod e hm he
    simp [_load_command, hm, he]
  · intro registry_key name hfind
    simp [get_command, hfind]

/-- Witness for the amended C9: a failing import, a module missing the
function, and a name absent from the `list` group. -/
theorem lazy_resolution_error_handling_witness :
    _load_command (κ := Unit) ⟨fun _ => .error "boom"⟩
      "sagemaker.hyperpod.cli.commands.training" "list_jobs" =
      .error ("Command unavailable: Failed to import module '" ++
        "sagemaker.hyperpod.cli.commands.training" ++ "': " ++ "boom") ∧
    _load_command (κ := Unit) ⟨fun _ => .ok (fun _ => .error "missing")⟩
      "sagemaker.hyperpod.cli.commands.training" "list_jobs" =
      .error ("Command unavailable: Function '" ++ "list_jobs" ++
        "' not found in module '" ++
        "sagemaker.hyperpod.cli.commands.training" ++ "': " ++ "missing") ∧
    get_command (κ := Unit) ⟨fun _ => .error "boom"⟩ "list" "nope" = .ok none :=
  ⟨(lazy_resolution_error_handling (κ := Unit) ⟨fun _ => .error "boom"⟩
      "sagemaker.hyperpod.cli.commands.training" "list_jobs").1 "boom" rfl,
   (lazy_resolution_error_handling (κ := Unit)
      ⟨fun _ => .ok (fun _ => .error "missing")⟩
      "sagemaker.hyperpod.cli.commands.training" "list_jobs").2.1
     (fun _ => .error "missing") "missing" rfl rfl,
   (lazy_resolution_error_handling (κ := Unit) ⟨fun _ => .error "boom"⟩
      "sagemaker.hyperpod.cli.commands.training" "list_jobs").2.2
     "list" "nope" (by decide)⟩

end HypCLI
